import Mathlib

/-!
Shallow embedding of `src/app.py` (the "2-Second Image Emotion Survey"
Streamlit application) and proofs about it.

Conventions of the embedding:
* Python strings are Lean `String`; operations that must evaluate inside the
  kernel (strip, lower, lexicographic comparison) are re-implemented over
  `List Char`, mirroring Python's code-point semantics.
* `st.session_state` becomes the explicit record `AppState`; every phase
  handler is a pure function from the old state (plus the widget inputs it
  reads) to the new state, optionally paired with the inline error message
  it would display.
* Wall-clock instants (`time.time()`) are rationals; `datetime.utcnow()`
  timestamps are opaque strings passed in by the caller.
* The seeded Mersenne Twister of `random.Random(seed)` is modelled by a
  deterministic draw stream derived from the seed (`seedStream`); the
  Fisher-Yates loop of `random.shuffle` is embedded exactly, and the
  permutation property is proved for every possible draw stream.
* The Google-Sheets collaborator is modelled by a `Worksheet` value and an
  `Adapter` function whose result (success or raised exception) is chosen by
  the environment; the `try/except` in the source becomes a `match` on that
  result.
* Python list indexing `xs[i]` (which raises on out-of-range) is modelled
  with `List.getD`; the theorems are stated for states where the index is in
  range, which is an invariant of every reachable session.
-/

namespace ImageSurvey

/-! ## Configuration (`CONFIG` block of app.py) -/

def IMAGE_DIR : String := "images"

def MAX_IMAGES : Nat := 30

def SHOW_SECONDS : ℚ := 2

def EMOTIONS : List String :=
  ["Angry", "Happy", "Sad", "Scared", "Surprised", "Neutral", "Disgusted", "Contempt"]

def RATING_MIN : Int := 0

def RATING_MAX : Int := 100

def RATING_DEFAULT : Int := 0

/-! ## Python string primitives used by the app -/

/-- Python `str.strip()` whitespace test (ASCII whitespace as used here). -/
def isSpaceChar (c : Char) : Bool :=
  c = ' ' || c = '\t' || c = '\n' || c = '\x0d' || c = '\x0b' || c = '\x0c'

/-- Python `str.strip()`: drop leading and trailing whitespace. -/
def pyStrip (s : String) : String :=
  String.mk (((s.toList.dropWhile isSpaceChar).reverse.dropWhile isSpaceChar).reverse)

/-- Python code-point lexicographic `<=` on strings (the order used by
`sorted` on same-directory `Path`s). -/
def charListLe (xs ys : List Char) : Bool :=
  match xs, ys with
  | [], _ => true
  | _ :: _, [] => false
  | c :: cs, d :: ds =>
    if c.toNat < d.toNat then true
    else if d.toNat < c.toNat then false
    else charListLe cs ds

def pyLe (a b : String) : Bool := charListLe a.toList b.toList

/-! ## Phases -/

/-- The five phases of the session machine:
`consent -> demographics -> show -> rate -> done`. -/
inductive Phase where
  | consent
  | demographics
  | showImg
  | rate
  | done
deriving DecidableEq, Inhabited

/-! ## Rows and the sheet schema -/

/-- One response record, as assembled in `record_and_next` (app.py 218-233). -/
structure Row where
  study_id : String
  participant_id : String
  consented : Bool
  consent_timestamp_iso : String
  name : String
  age : Int
  gender : String
  nationality : String
  trial_index : Nat
  order_index : Nat
  image_file : String
  rating_angry : Int
  rating_happy : Int
  rating_sad : Int
  rating_scared : Int
  rating_surprised : Int
  rating_neutral : Int
  rating_disgusted : Int
  rating_contempt : Int
  result_estimate : String
  response_timestamp_iso : String
deriving DecidableEq, Inhabited

/-- A spreadsheet cell value (Python sends strings, ints and bools). -/
inductive Cell where
  | str (v : String)
  | int (v : Int)
  | bool (v : Bool)
  | nat (v : Nat)
deriving DecidableEq, Inhabited

/-- The remote worksheet handle (`responses` tab content). -/
structure Worksheet where
  rows : List (List Cell)
deriving DecidableEq, Inhabited

/-- Outcome of one remote `ws.append_row` call: `ok` or a raised exception
message.  The environment chooses it; the app only catches it. -/
abbrev Adapter := List Cell → Except String Unit

/-- The 21-column header written by `get_worksheet` (app.py 86-94). -/
def sheet_header : List String :=
  ["study_id", "participant_id", "consented", "consent_timestamp_iso",
   "name", "age", "gender", "nationality",
   "trial_index", "order_index", "image_file",
   "rating_angry", "rating_happy", "rating_sad", "rating_scared",
   "rating_surprised", "rating_neutral", "rating_disgusted", "rating_contempt",
   "result_estimate",
   "response_timestamp_iso"]

def header_row_cells : List Cell := sheet_header.map Cell.str

/-- The ordered 21-value list built by `append_row_to_sheet` (app.py 109-131),
position for position. -/
def rowToOrdered (r : Row) : List Cell :=
  [Cell.str r.study_id,
   Cell.str r.participant_id,
   Cell.bool r.consented,
   Cell.str r.consent_timestamp_iso,
   Cell.str r.name,
   Cell.int r.age,
   Cell.str r.gender,
   Cell.str r.nationality,
   Cell.nat r.trial_index,
   Cell.nat r.order_index,
   Cell.str r.image_file,
   Cell.int r.rating_angry,
   Cell.int r.rating_happy,
   Cell.int r.rating_sad,
   Cell.int r.rating_scared,
   Cell.int r.rating_surprised,
   Cell.int r.rating_neutral,
   Cell.int r.rating_disgusted,
   Cell.int r.rating_contempt,
   Cell.str r.result_estimate,
   Cell.str r.response_timestamp_iso]

/-- Spec-side column lookup: which `Row` field belongs to a given header
column name.  Written from the spec's schema description, to be compared
position-for-position against `rowToOrdered`. -/
def cellForColumn (r : Row) (col : String) : Option Cell :=
  if col = "study_id" then some (Cell.str r.study_id)
  else if col = "participant_id" then some (Cell.str r.participant_id)
  else if col = "consented" then some (Cell.bool r.consented)
  else if col = "consent_timestamp_iso" then some (Cell.str r.consent_timestamp_iso)
  else if col = "name" then some (Cell.str r.name)
  else if col = "age" then some (Cell.int r.age)
  else if col = "gender" then some (Cell.str r.gender)
  else if col = "nationality" then some (Cell.str r.nationality)
  else if col = "trial_index" then some (Cell.nat r.trial_index)
  else if col = "order_index" then some (Cell.nat r.order_index)
  else if col = "image_file" then some (Cell.str r.image_file)
  else if col = "rating_angry" then some (Cell.int r.rating_angry)
  else if col = "rating_happy" then some (Cell.int r.rating_happy)
  else if col = "rating_sad" then some (Cell.int r.rating_sad)
  else if col = "rating_scared" then some (Cell.int r.rating_scared)
  else if col = "rating_surprised" then some (Cell.int r.rating_surprised)
  else if col = "rating_neutral" then some (Cell.int r.rating_neutral)
  else if col = "rating_disgusted" then some (Cell.int r.rating_disgusted)
  else if col = "rating_contempt" then some (Cell.int r.rating_contempt)
  else if col = "result_estimate" then some (Cell.str r.result_estimate)
  else if col = "response_timestamp_iso" then some (Cell.str r.response_timestamp_iso)
  else none

/-- `get_worksheet` (app.py 55-100): `None` when the sheet URL is unset or the
connection/authorization raises; an existing `responses` worksheet is used
as-is; a missing one is created with the header row appended. -/
def get_worksheet (sheet_url : String) (found : Option Worksheet)
    (connect_ok : Bool) : Option Worksheet :=
  if sheet_url = "" then none
  else if connect_ok = false then none
  else
    match found with
    | some ws => some ws
    | none => some { rows := [header_row_cells] }

/-! ## Observable effects of one recording step -/

/-- Effects emitted while recording one trial, in program order. -/
inductive Effect where
  | localAppend (r : Row)
  | remoteAttempt (r : Row)
  | notice (msg : String)
deriving DecidableEq

/-- `append_row_to_sheet` (app.py 104-136): a no-op warning when there is no
worksheet; otherwise one remote attempt whose raised exception, if any, is
caught and turned into an error notice. -/
def append_row_to_sheet (ws : Option Worksheet) (adapter : Adapter)
    (row : Row) : List Effect :=
  match ws with
  | none => [Effect.notice "Sheets: no worksheet; not writing."]
  | some _ =>
    match adapter (rowToOrdered row) with
    | Except.ok _ => [Effect.remoteAttempt row, Effect.notice "Saved to Google Sheet"]
    | Except.error e =>
      [Effect.remoteAttempt row,
       Effect.notice ("Failed to append to Google Sheets: " ++ e)]

/-! ## Image catalog loader -/

/-- `pathlib.PurePath.suffix`: the last-dot extension of the file name, empty
when there is no dot, the dot is leading, or the dot is last. -/
def pySuffix (name : String) : String :=
  let cs := name.toList
  match ((List.range cs.length).filter (fun k => cs.getD k ' ' = '.')).getLast? with
  | none => ""
  | some i => if 0 < i ∧ i + 1 < cs.length then String.mk (cs.drop i) else ""

/-- Python `str.lower()` of the suffix. -/
def lowerExt (p : String) : String := String.mk ((pySuffix p).toList.map Char.toLower)

/-- The fixed extension allow-list of `load_images` (app.py 142). -/
def image_exts : List String := [".png", ".jpg", ".jpeg", ".webp", ".bmp"]

/-- `p.suffix.lower() in exts`. -/
def extAllowed (p : String) : Bool := image_exts.contains (lowerExt p)

/-- `load_images` (app.py 139-144).  `dir_present` models `dirpath.exists()`,
`entries` the file names yielded by `dirpath.iterdir()`. -/
def load_images (dir_present : Bool) (entries : List String) (max_n : Nat) :
    List String :=
  if dir_present = false then []
  else ((List.insertionSort (fun a b => pyLe a b = true) entries).filter extAllowed).take max_n

/-- Result of the top-level catalog check (app.py 248-251). -/
inductive StartupResult where
  | halted (msg : String)
  | proceed
deriving DecidableEq

/-- The fatal empty-catalog precondition: `st.error` + `st.stop()` before any
phase is dispatched (app.py 248-251). -/
def startupCheck (images : List String) : StartupResult :=
  if images.length = 0 then
    StartupResult.halted
      ("No images found in `" ++ IMAGE_DIR ++ "/`. Add up to " ++
       toString MAX_IMAGES ++ " images and reload.")
  else StartupResult.proceed

/-! ## Seeded shuffle (`randomize_order`, app.py 177-181) -/

/-- Model of the draw stream of `random.Random(seed)`: a fixed deterministic
function of the seed and of the draw position.  The permutation theorems
below are proved for an arbitrary stream (`pyShuffle`), so no property
depends on this particular mixing formula; it only makes the embedding a
total computable function of `(n, seed)` exactly as the Python function is. -/
def seedStream (seed : String) (k : Nat) : Nat :=
  (seed.toList.foldl (fun a c => (a * 31 + c.toNat) % 1000003) 7 + 1) * (k + 1) % 1000003

/-- In-place swap `x[i], x[j] = x[j], x[i]` on a Python list. -/
def listSwap {α : Type} (l : List α) (i j : Nat) : List α :=
  match l[i]?, l[j]? with
  | some a, some b => (l.set i b).set j a
  | some _, none => l
  | none, _ => l

/-- The Fisher-Yates loop of `random.shuffle`:
`for i in reversed(range(1, len(x))): j = randbelow(i + 1); swap`.
`shuffleAux g l k` runs the loop for `i = k, k-1, ..., 1`, drawing
`j = g i % (i + 1)`. -/
def shuffleAux {α : Type} (g : Nat → Nat) : List α → Nat → List α
  | l, 0 => l
  | l, k + 1 => shuffleAux g (listSwap l (k + 1) (g (k + 1) % (k + 2))) k

/-- `random.Random(seed).shuffle(x)` with draw stream `g`. -/
def pyShuffle {α : Type} (g : Nat → Nat) (l : List α) : List α :=
  shuffleAux g l (l.length - 1)

/-- `randomize_order` (app.py 177-181). -/
def randomize_order (n : Nat) (seed : String) : List Nat :=
  pyShuffle (seedStream seed) (List.range n)

/-! ## Session state and phase handlers -/

/-- The `st.session_state` fields set up by `init_state` (app.py 146-172). -/
structure AppState where
  phase : Phase
  study_id : String
  images : List String
  order : List Nat
  idx : Nat
  show_started_at : Option ℚ
  consented : Bool
  consent_timestamp_iso : String
  participant_id : String
  name : String
  age : Int
  gender : String
  nationality : String
  responses : List Row
  ws : Option Worksheet
deriving Inhabited

/-- The eight emotion sliders of the rating form. -/
structure Sliders where
  angry : Int
  happy : Int
  sad : Int
  scared : Int
  surprised : Int
  neutral : Int
  disgusted : Int
  contempt : Int
deriving DecidableEq, Inhabited

/-- The `row` dictionary assembled inside `record_and_next` (app.py 218-233);
`nowIso` is the `datetime.utcnow().isoformat() + "Z"` string. -/
def mkRow (ss : AppState) (sliders : Sliders) (result_estimate nowIso : String) :
    Row :=
  let i := ss.idx
  let img_idx := ss.order.getD i 0
  { study_id := ss.study_id
    participant_id := ss.participant_id
    consented := ss.consented
    consent_timestamp_iso := ss.consent_timestamp_iso
    name := ss.name
    age := ss.age
    gender := ss.gender
    nationality := ss.nationality
    trial_index := img_idx + 1
    order_index := i + 1
    image_file := ss.images.getD img_idx ""
    rating_angry := sliders.angry
    rating_happy := sliders.happy
    rating_sad := sliders.sad
    rating_scared := sliders.scared
    rating_surprised := sliders.surprised
    rating_neutral := sliders.neutral
    rating_disgusted := sliders.disgusted
    rating_contempt := sliders.contempt
    result_estimate := result_estimate
    response_timestamp_iso := nowIso }

/-- `record_and_next` (app.py 209-243): append the record to the local log,
attempt the remote append, then advance cursor and phase and clear the
exposure marker.  Also returns the emitted effects in program order. -/
def record_and_next (ss : AppState) (adapter : Adapter) (sliders : Sliders)
    (result_estimate nowIso : String) : AppState × List Effect :=
  let total := ss.order.length
  let i := ss.idx
  let row := mkRow ss sliders result_estimate nowIso
  let ss1 := { ss with responses := ss.responses ++ [row] }
  let effs := append_row_to_sheet ss.ws adapter row
  ({ ss1 with
      idx := i + 1
      show_started_at := none
      phase := if total ≤ i + 1 then Phase.done else Phase.showImg },
   Effect.localAppend row :: effs)

/-- One validated submission's inputs: the slider values, the selected result
judgment and the wall-clock timestamp string. -/
structure SubmitInput where
  sliders : Sliders
  result_estimate : String
  nowIso : String

/-- A run of successive validated rating submissions. -/
def submitRun (adapter : Adapter) : AppState → List SubmitInput → AppState
  | ss, [] => ss
  | ss, inp :: rest =>
    submitRun adapter
      (record_and_next ss adapter inp.sliders inp.result_estimate inp.nowIso).1 rest

/-- `can_start_demographics` (app.py 195-203).  `isinstance(ss.age, int)` is
always true in the embedding, where `age` is an integer. -/
def can_start_demographics (ss : AppState) : Bool :=
  pyStrip ss.name ≠ "" && pyStrip ss.gender ≠ "" && pyStrip ss.nationality ≠ ""
    && decide (0 < ss.age)

/-- The demographics form submit handler (app.py 304-328).  `age_parsed`
models `int(age_input)`: `none` when the conversion raises, in which case the
handler stores the sentinel `0`.  Returns the new state and the inline error
message, if any. -/
def demographics_submit (ss : AppState) (name_input : String)
    (age_parsed : Option Int) (gender_input nationality_input : String) :
    AppState × Option String :=
  let ss1 := { ss with
    name := pyStrip name_input
    age := age_parsed.getD 0
    gender := pyStrip gender_input
    nationality := pyStrip nationality_input }
  if ss1.name ≠ "" ∧ ss1.gender ≠ "" ∧ ss1.nationality ≠ "" ∧ 0 < ss1.age then
    ({ ss1 with
        order := randomize_order ss1.images.length ss1.participant_id
        idx := 0
        show_started_at := none
        phase := Phase.showImg }, none)
  else (ss1, some "Please complete all demographic fields before starting.")

/-- The rate form submit handler (app.py 378-383): a missing result judgment
blocks with an inline error and no state change; otherwise `record_and_next`
runs. -/
def rateSubmit (ss : AppState) (adapter : Adapter) (sliders : Sliders)
    (result_estimate : Option String) (nowIso : String) :
    AppState × Option String :=
  match result_estimate with
  | none => (ss, some "Please select Won, Lost, or Unsure before continuing.")
  | some r => ((record_and_next ss adapter sliders r nowIso).1, none)

/-- One render of the show phase (app.py 332-352) at wall-clock instant
`now`: set the exposure start marker if unset, then either keep waiting
(sleep + rerun, state otherwise unchanged) or advance to `rate` once the
remaining time `SHOW_SECONDS - (now - started)` is no longer positive. -/
def showStep (ss : AppState) (now : ℚ) : AppState :=
  let started := ss.show_started_at.getD now
  let ss1 := { ss with show_started_at := some started }
  if 0 < SHOW_SECONDS - (now - started) then ss1
  else { ss1 with phase := Phase.rate }

/-- The image file rendered by the show phase (app.py 334-335, 344). -/
def displayedImage (ss : AppState) : String :=
  ss.images.getD (ss.order.getD ss.idx 0) ""

/-! ## Participant id (consent phase) -/

/-- `generate_participant_id` (app.py 174-175): `uuid.uuid4().hex[:8].upper()`,
with the UUID4 hex digest passed in as `uuid_hex`. -/
def generate_participant_id (uuid_hex : String) : String :=
  String.mk ((uuid_hex.toList.take 8).map Char.toUpper)

/-- The consent-phase participant-id logic (app.py 273-274): generate a fresh
id only when the stored one is empty. -/
def consent_pid (stored : String) (uuid_hex : String) : String :=
  if stored = "" then generate_participant_id uuid_hex else stored

/-- The lowercase hexadecimal alphabet of `uuid.uuid4().hex`. -/
def hexLower : List Char := "0123456789abcdef".toList

/-- Uppercase hexadecimal characters. -/
def hexUpper : List Char := "0123456789ABCDEF".toList

/-! ## Done phase -/

/-- A user-visible UI effect of a phase render. -/
inductive UIEffect where
  | successMsg (text : String)
  | writeMsg (text : String)
  | infoMsg (text : String)
  | downloadArtifact (filename : String) (csv : String)
deriving DecidableEq

def isDownloadArtifact : UIEffect → Bool
  | UIEffect.downloadArtifact _ _ => true
  | _ => false

/-- The done-phase render (app.py 388-391): three static messages, reading
nothing from the session state. -/
def done_render (ss : AppState) : List UIEffect :=
  let _ := ss
  [UIEffect.successMsg "All done — thank you for participating!",
   UIEffect.writeMsg "Your responses have been recorded.",
   UIEffect.infoMsg "You may now close this window."]

/-- An adapter whose remote append always raises (for the persistence-failure
scenario). -/
def failingAdapter : Adapter := fun _ => Except.error "simulated network failure"

/-- An adapter whose remote append always succeeds. -/
def okAdapter : Adapter := fun _ => Except.ok ()

/-! ## Concrete fixture states used by the closed witness theorems -/

/-- A session sitting at the demographics phase. -/
def demoState : AppState :=
  { phase := Phase.demographics
    study_id := "image_emotion_survey_v5"
    images := ["a.png", "b.png", "c.png"]
    order := []
    idx := 0
    show_started_at := none
    consented := true
    consent_timestamp_iso := "2026-01-01T00:00:00Z"
    participant_id := "ABC12345"
    name := ""
    age := 0
    gender := ""
    nationality := ""
    responses := []
    ws := none }

/-- A session that has just completed demographics over a 3-image catalog. -/
def runState : AppState :=
  { demoState with
    phase := Phase.showImg
    order := [2, 0, 1]
    name := "Ann"
    age := 30
    gender := "Female"
    nationality := "USA" }

/-- The same session while the first image is on screen. -/
def showState : AppState :=
  { runState with show_started_at := some 10 }

/-- A completed session. -/
def doneState : AppState :=
  { runState with phase := Phase.done, idx := 3 }

def sampleSliders : Sliders :=
  { angry := 10, happy := 20, sad := 0, scared := 0,
    surprised := 5, neutral := 50, disgusted := 0, contempt := 0 }

def sampleInputs : List SubmitInput :=
  [{ sliders := sampleSliders, result_estimate := "Won", nowIso := "t1" },
   { sliders := sampleSliders, result_estimate := "Lost", nowIso := "t2" },
   { sliders := sampleSliders, result_estimate := "Unsure", nowIso := "t3" }]

end ImageSurvey

namespace ImageSurvey

/-! ## Helper lemmas: the Fisher-Yates loop permutes its input -/

lemma cons_set_perm {α : Type} : ∀ (l : List α) (i : Nat) (a b : α),
    l[i]? = some a → (a :: l.set i b).Perm (b :: l)
  | [], i, a, b, h => by simp at h
  | x :: xs, 0, a, b, h => by
    simp at h
    subst h
    simpa using List.Perm.swap b x xs
  | x :: xs, i + 1, a, b, h => by
    simp at h
    have ih := cons_set_perm xs i a b h
    have h1 : (x :: xs).set (i + 1) b = x :: xs.set i b := rfl
    rw [h1]
    exact (List.Perm.swap x a (xs.set i b)).trans ((ih.cons x).trans (List.Perm.swap b x xs))

lemma set_set_perm {α : Type} (l : List α) (i j : Nat) (a b : α)
    (hi : l[i]? = some a) (hj : l[j]? = some b) :
    ((l.set i b).set j a).Perm l := by
  have hj' : (l.set i b)[j]? = some b := by
    by_cases hij : i = j
    · subst hij
      have hlen : i < l.length := (List.getElem?_eq_some.mp hi).1
      rw [List.getElem?_set_self hlen]
    · rw [List.getElem?_set_ne hij]
      exact hj
  have h1 := cons_set_perm (l.set i b) j b a hj'
  have h2 := cons_set_perm l i a b hi
  exact (h1.trans h2).cons_inv

lemma listSwap_perm {α : Type} (l : List α) (i j : Nat) : (listSwap l i j).Perm l := by
  unfold listSwap
  split
  · rename_i a b hi hj
    exact set_set_perm l i j a b hi hj
  · exact List.Perm.refl l
  · exact List.Perm.refl l

lemma shuffleAux_perm {α : Type} (g : Nat → Nat) :
    ∀ (k : Nat) (l : List α), (shuffleAux g l k).Perm l
  | 0, l => List.Perm.refl l
  | k + 1, l => by
    have ih := shuffleAux_perm g k (listSwap l (k + 1) (g (k + 1) % (k + 2)))
    exact ih.trans (listSwap_perm l (k + 1) (g (k + 1) % (k + 2)))

lemma pyShuffle_perm {α : Type} (g : Nat → Nat) (l : List α) :
    (pyShuffle g l).Perm l := shuffleAux_perm g (l.length - 1) l

lemma randomize_order_perm (n : Nat) (seed : String) :
    (randomize_order n seed).Perm (List.range n) :=
  pyShuffle_perm (seedStream seed) (List.range n)

/-! ## Helper lemmas: the Python string order is total and transitive -/

lemma charListLe_total : ∀ as bs : List Char,
    charListLe as bs = true ∨ charListLe bs as = true
  | [], _ => Or.inl rfl
  | _ :: _, [] => Or.inr rfl
  | a :: as, b :: bs => by
    rcases Nat.lt_trichotomy a.toNat b.toNat with h | h | h
    · left; simp [charListLe, h]
    · rcases charListLe_total as bs with ih | ih
      · left; simp [charListLe, h, ih]
      · right; simp [charListLe, h, ih]
    · right; simp [charListLe, h]

lemma charListLe_trans : ∀ as bs cs : List Char,
    charListLe as bs = true → charListLe bs cs = true → charListLe as cs = true
  | [], _, _, _, _ => rfl
  | _ :: _, [], _, h1, _ => by simp [charListLe] at h1
  | _ :: _, _ :: _, [], _, h2 => by simp [charListLe] at h2
  | a :: as, b :: bs, c :: cs, h1, h2 => by
    rcases Nat.lt_trichotomy a.toNat b.toNat with hab | hab | hab
    · rcases Nat.lt_trichotomy b.toNat c.toNat with hbc | hbc | hbc
      · simp [charListLe, Nat.lt_trans hab hbc]
      · simp [charListLe, show a.toNat < c.toNat by omega]
      · simp [charListLe, Nat.lt_asymm hbc, hbc] at h2
    · rcases Nat.lt_trichotomy b.toNat c.toNat with hbc | hbc | hbc
      · simp [charListLe, show a.toNat < c.toNat by omega]
      · have nab : ¬ a.toNat < b.toNat := by omega
        have nba : ¬ b.toNat < a.toNat := by omega
        have nbc : ¬ b.toNat < c.toNat := by omega
        have ncb : ¬ c.toNat < b.toNat := by omega
        have nac : ¬ a.toNat < c.toNat := by omega
        have nca : ¬ c.toNat < a.toNat := by omega
        simp [charListLe, nab, nba] at h1
        simp [charListLe, nbc, ncb] at h2
        simp [charListLe, nac, nca]
        exact charListLe_trans as bs cs h1 h2
      · simp [charListLe, Nat.lt_asymm hbc, hbc] at h2
    · simp [charListLe, Nat.lt_asymm hab, hab] at h1

instance : IsTotal String (fun a b => pyLe a b = true) :=
  ⟨fun a b => charListLe_total a.toList b.toList⟩

instance : IsTrans String (fun a b => pyLe a b = true) :=
  ⟨fun a b c => charListLe_trans a.toList b.toList c.toList⟩

lemma charListLe_antisymm : ∀ as bs : List Char,
    charListLe as bs = true → charListLe bs as = true → as = bs
  | [], [], _, _ => rfl
  | [], _ :: _, _, h2 => by simp [charListLe] at h2
  | _ :: _, [], h1, _ => by simp [charListLe] at h1
  | a :: as, b :: bs, h1, h2 => by
    rcases Nat.lt_trichotomy a.toNat b.toNat with hab | hab | hab
    · simp [charListLe, Nat.lt_asymm hab, hab] at h2
    · have hchar : a = b := Char.eq_of_val_eq (UInt32.toNat.inj hab)
      have nab : ¬ a.toNat < b.toNat := by omega
      have nba : ¬ b.toNat < a.toNat := by omega
      simp [charListLe, nab, nba] at h1
      simp [charListLe, nab, nba] at h2
      rw [hchar, charListLe_antisymm as bs h1 h2]
    · simp [charListLe, Nat.lt_asymm hab, hab] at h1

instance : IsAntisymm String (fun a b => pyLe a b = true) :=
  ⟨fun a b h1 h2 => String.ext (charListLe_antisymm a.toList b.toList h1 h2)⟩

end ImageSurvey

namespace ImageSurvey

/-! ## Helper lemmas: the recording run invariant -/

lemma record_and_next_state_eq (ss : AppState) (adapter : Adapter) (sliders : Sliders)
    (result_estimate nowIso : String) :
    (record_and_next ss adapter sliders result_estimate nowIso).1 =
      { ss with
          responses := ss.responses ++ [mkRow ss sliders result_estimate nowIso]
          idx := ss.idx + 1
          show_started_at := none
          phase := if ss.order.length ≤ ss.idx + 1 then Phase.done else Phase.showImg } := rfl

lemma submitRun_spec (adapter : Adapter) :
    ∀ (inputs : List SubmitInput) (ss : AppState),
      ss.phase = Phase.showImg →
      ss.idx = ss.responses.length →
      ss.idx + inputs.length ≤ ss.order.length →
      (submitRun adapter ss inputs).order = ss.order ∧
      (submitRun adapter ss inputs).images = ss.images ∧
      (submitRun adapter ss inputs).idx = ss.idx + inputs.length ∧
      (submitRun adapter ss inputs).responses.length
        = ss.responses.length + inputs.length ∧
      (∀ j, j < ss.responses.length →
          (submitRun adapter ss inputs).responses.getD j default
            = ss.responses.getD j default) ∧
      (∀ j, ss.responses.length ≤ j → j < ss.responses.length + inputs.length →
          ((submitRun adapter ss inputs).responses.getD j default).order_index = j + 1 ∧
          ((submitRun adapter ss inputs).responses.getD j default).trial_index
            = ss.order.getD j 0 + 1 ∧
          ((submitRun adapter ss inputs).responses.getD j default).image_file
            = ss.images.getD (ss.order.getD j 0) "") ∧
      (submitRun adapter ss inputs).phase
        = (if inputs.length = 0 then Phase.showImg
           else if ss.order.length ≤ ss.idx + inputs.length then Phase.done
           else Phase.showImg)
  | [], ss, hph, hidx, hle => by
    refine ⟨rfl, rfl, by simp [submitRun], by simp [submitRun], ?_, ?_, ?_⟩
    · intro j hj
      rfl
    · intro j hj1 hj2
      simp only [List.length_nil] at hj2
      omega
    · simpa [submitRun] using hph
  | inp :: rest, ss, hph, hidx, hle => by
    have hlen1 : ss.idx + (inp :: rest).length ≤ ss.order.length := hle
    simp only [List.length_cons] at hlen1
    have hstep : submitRun adapter ss (inp :: rest)
        = submitRun adapter
            { ss with
              responses := ss.responses ++ [mkRow ss inp.sliders inp.result_estimate inp.nowIso]
              idx := ss.idx + 1
              show_started_at := none
              phase := if ss.order.length ≤ ss.idx + 1 then Phase.done else Phase.showImg }
            rest := by
      simp only [submitRun, record_and_next_state_eq]
    set row := mkRow ss inp.sliders inp.result_estimate inp.nowIso with hrow
    by_cases hdone : ss.order.length ≤ ss.idx + 1
    · -- the submission that was just recorded was the last one: rest must be empty
      have hrest : rest = [] := by
        cases rest with
        | nil => rfl
        | cons r rs => simp only [List.length_cons] at hlen1; omega
      subst hrest
      rw [hstep]
      simp only [submitRun]
      refine ⟨trivial, trivial, by simp, by simp, ?_, ?_, ?_⟩
      · intro j hj
        exact List.getD_append _ _ _ _ hj
      · intro j hj1 hj2
        simp only [List.length_cons, List.length_nil] at hj2
        have hj : j = ss.responses.length := by omega
        subst hj
        rw [List.getD_append_right _ _ _ _ (le_refl _)]
        simp only [Nat.sub_self, List.getD_cons_zero]
        refine ⟨?_, ?_, ?_⟩
        · simp [hrow, mkRow, hidx]
        · simp [hrow, mkRow, hidx]
        · simp [hrow, mkRow, hidx]
      · simp only [List.length_cons, List.length_nil]
        simp [hdone]
    · -- more submissions follow: the phase stayed at show and the invariant recurses
      have hph1 : (if ss.order.length ≤ ss.idx + 1 then Phase.done else Phase.showImg)
          = Phase.showImg := by simp [hdone]
      rw [hstep, hph1]
      set s1 : AppState :=
        { ss with
          responses := ss.responses ++ [row]
          idx := ss.idx + 1
          show_started_at := none
          phase := Phase.showImg } with hs1
      have hidx1 : s1.idx = s1.responses.length := by
        simp [hs1, hidx]
      have hle1 : s1.idx + rest.length ≤ s1.order.length := by
        simp only [hs1]
        omega
      have IH := submitRun_spec adapter rest s1 rfl hidx1 hle1
      obtain ⟨iord, iimg, iidx, ilen, ipres, inew, iph⟩ := IH
      have hresp1 : s1.responses = ss.responses ++ [row] := rfl
      have hlen1' : s1.responses.length = ss.responses.length + 1 := by
        simp [hresp1]
      refine ⟨iord, iimg, ?_, ?_, ?_, ?_, ?_⟩
      · rw [iidx]
        simp only [hs1, List.length_cons]
        omega
      · rw [ilen, hlen1', List.length_cons]
        omega
      · intro j hj
        rw [ipres j (by omega), hresp1, List.getD_append _ _ _ _ hj]
      · intro j hj1 hj2
        simp only [List.length_cons] at hj2
        by_cases hjnew : j < s1.responses.length
        · have hj : j = ss.responses.length := by omega
          subst hj
          rw [ipres _ hjnew, hresp1, List.getD_append_right _ _ _ _ (le_refl _)]
          simp only [Nat.sub_self, List.getD_cons_zero]
          refine ⟨by simp [hrow, mkRow, hidx], by simp [hrow, mkRow, hidx],
            by simp [hrow, mkRow, hidx]⟩
        · have h1 : s1.responses.length ≤ j := by omega
          have h2 : j < s1.responses.length + rest.length := by omega
          obtain ⟨o1, t1, f1⟩ := inew j h1 h2
          exact ⟨o1, t1, f1⟩
      · rw [iph]
        simp only [hs1, List.length_cons]
        by_cases hr0 : rest.length = 0
        · simp [hr0, hdone]
        · have hne : ¬ (rest.length + 1 = 0) := by omega
          rw [if_neg hr0, if_neg hne]
          have harith : ss.idx + 1 + rest.length = ss.idx + (rest.length + 1) := by omega
          rw [harith]

end ImageSurvey

namespace ImageSurvey

/-! ## Claim theorems -/

lemma toUpper_mem_hexUpper : ∀ d ∈ hexLower, Char.toUpper d ∈ hexUpper := by decide

lemma update_started_eq (ss : AppState) (t : ℚ) (h : ss.show_started_at = some t) :
    ({ ss with show_started_at := some t } : AppState) = ss := by
  cases ss
  simp only at h
  simp [h]

/-- Claim C1: for every catalog size `n` and seed string, `randomize_order` is
deterministic (a pure function of `(n, seed)`, so repeated invocations yield
the identical list) and returns a permutation of `[0, n)`: every index below
`n` occurs exactly once and nothing else occurs. -/
theorem randomize_order_deterministic_bijection (n : Nat) (seed : String) :
    randomize_order n seed = randomize_order n seed ∧
    (randomize_order n seed).Perm (List.range n) ∧
    (∀ i, i < n → (randomize_order n seed).count i = 1) ∧
    (∀ i, i ∈ randomize_order n seed → i < n) := by
  refine ⟨rfl, randomize_order_perm n seed, fun i h => ?_, fun i h => ?_⟩
  · rw [(randomize_order_perm n seed).count_eq]
    exact List.count_eq_one_of_mem (List.nodup_range n) (List.mem_range.mpr h)
  · exact List.mem_range.mp ((randomize_order_perm n seed).mem_iff.mp h)

/-- Witness for C1 at `n = 5`, seed `"ABC12345"`. -/
theorem randomize_order_deterministic_bijection_witness :
    (randomize_order 5 "ABC12345").Perm (List.range 5) ∧
    (randomize_order 5 "ABC12345").count 3 = 1 ∧ (0 : Nat) < 5 :=
  ⟨(randomize_order_deterministic_bijection 5 "ABC12345").2.1,
   (randomize_order_deterministic_bijection 5 "ABC12345").2.2.1 3 (by decide),
   (randomize_order_deterministic_bijection 5 "ABC12345").2.2.2 0 (by decide)⟩

/-- Claim C3: the demographics submission advances to the show phase iff
name, gender and nationality are non-empty after stripping and the parsed
age is a positive integer; otherwise the phase stays `demographics` with the
inline error, and a failed age parse stores the sentinel `0`, which itself
fails the validation. -/
theorem demographics_validation_gate (ss : AppState)
    (name_input gender_input nationality_input : String) (age_parsed : Option Int)
    (hph : ss.phase = Phase.demographics) :
    ((demographics_submit ss name_input age_parsed gender_input nationality_input).1.phase
        = Phase.showImg ↔
      (pyStrip name_input ≠ "" ∧ pyStrip gender_input ≠ "" ∧
        pyStrip nationality_input ≠ "" ∧ 0 < age_parsed.getD 0)) ∧
    (¬ (pyStrip name_input ≠ "" ∧ pyStrip gender_input ≠ "" ∧
        pyStrip nationality_input ≠ "" ∧ 0 < age_parsed.getD 0) →
      (demographics_submit ss name_input age_parsed gender_input nationality_input).1.phase
          = Phase.demographics ∧
      (demographics_submit ss name_input age_parsed gender_input nationality_input).2
          = some "Please complete all demographic fields before starting.") ∧
    (age_parsed = none →
      (demographics_submit ss name_input age_parsed gender_input nationality_input).1.age
        = 0) := by
  by_cases hcond : pyStrip name_input ≠ "" ∧ pyStrip gender_input ≠ "" ∧
      pyStrip nationality_input ≠ "" ∧ 0 < age_parsed.getD 0
  · refine ⟨?_, fun hn => absurd hcond hn, fun hnone => ?_⟩
    · simp [demographics_submit, hcond]
    · subst hnone
      simp at hcond
  · refine ⟨?_, fun _ => ?_, fun hnone => ?_⟩
    · simp [demographics_submit, hcond, hph]
    · constructor
      · simp [demographics_submit, hcond, hph]
      · simp [demographics_submit, hcond]
    · subst hnone
      simp [demographics_submit, hcond]

/-- Witness for C3: age 0 with all other fields filled blocks the
transition, as the spec's example requires. -/
theorem demographics_validation_gate_witness :
    (demographics_submit demoState "Ann" (some 0) "Female" "USA").1.phase
        = Phase.demographics ∧
    (demographics_submit demoState "Ann" (some 0) "Female" "USA").2
        = some "Please complete all demographic fields before starting." :=
  (demographics_validation_gate demoState "Ann" "Female" "USA" (some 0) rfl).2.1
    (by decide)

/-- Claim C4: a rating submission with the result judgment unset creates no
record and changes no state (in particular no `rate -> show` or
`rate -> done` transition happens); the phase is re-presented with an inline
error, whatever the eight slider values are. -/
theorem rate_submit_requires_result_judgment (ss : AppState) (adapter : Adapter)
    (sliders : Sliders) (nowIso : String) :
    (rateSubmit ss adapter sliders none nowIso).1 = ss ∧
    (rateSubmit ss adapter sliders none nowIso).1.phase = ss.phase ∧
    (rateSubmit ss adapter sliders none nowIso).1.responses = ss.responses ∧
    (rateSubmit ss adapter sliders none nowIso).2
      = some "Please select Won, Lost, or Unsure before continuing." :=
  ⟨rfl, rfl, rfl, rfl⟩

/-- Claim C9: within one trial the exposure start marker is written only
once (a re-render never overwrites a set marker and leaves the state
unchanged), the `show -> rate` transition fires exactly when the elapsed
time since the marker reaches `SHOW_SECONDS`, and `record_and_next` clears
the marker for the next trial. -/
theorem show_phase_exposure_timer (ss : AppState) (t now : ℚ)
    (hs : ss.show_started_at = some t) (hph : ss.phase = Phase.showImg) :
    (showStep ss now).show_started_at = some t ∧
    ((showStep ss now).phase = Phase.rate ↔ SHOW_SECONDS ≤ now - t) ∧
    (now - t < SHOW_SECONDS → showStep ss now = ss) ∧
    (∀ (ss2 : AppState) (now2 : ℚ), ss2.show_started_at = none →
        (showStep ss2 now2).show_started_at = some now2) ∧
    (∀ (adapter : Adapter) (sliders : Sliders) (r nowIso : String),
        (record_and_next ss adapter sliders r nowIso).1.show_started_at = none) := by
  have h4 : ∀ (ss2 : AppState) (now2 : ℚ), ss2.show_started_at = none →
      (showStep ss2 now2).show_started_at = some now2 := by
    intro ss2 now2 h2
    unfold showStep
    rw [h2]
    by_cases hc : 0 < SHOW_SECONDS - (now2 - (none : Option ℚ).getD now2)
    · rw [if_pos hc]
      rfl
    · rw [if_neg hc]
      rfl
  have h5 : ∀ (adapter : Adapter) (sliders : Sliders) (r nowIso : String),
      (record_and_next ss adapter sliders r nowIso).1.show_started_at = none :=
    fun _ _ _ _ => rfl
  unfold showStep
  rw [hs]
  simp only [Option.getD_some]
  by_cases hlt : 0 < SHOW_SECONDS - (now - t)
  · rw [if_pos hlt]
    refine ⟨rfl, ?_, fun _ => update_started_eq ss t hs, h4, h5⟩
    constructor
    · intro hr
      have : ss.phase = Phase.rate := hr
      rw [hph] at this
      cases this
    · intro hle
      exact absurd hle (by intro h; linarith)
  · rw [if_neg hlt]
    refine ⟨rfl, ?_, fun hltnow => absurd hltnow (by intro h; linarith), h4, h5⟩
    constructor
    · intro _
      have hre := not_lt.mp hlt
      linarith
    · intro _
      rfl

/-- Witness for C9: with the marker at 10 and the clock at 12 the two
seconds have elapsed, the marker survives and the phase advances. -/
theorem show_phase_exposure_timer_witness :
    (showStep showState 12).show_started_at = some 10 ∧
    (showStep showState 12).phase = Phase.rate :=
  ⟨(show_phase_exposure_timer showState 10 12 rfl rfl).1,
   (show_phase_exposure_timer showState 10 12 rfl rfl).2.1.mpr (by norm_num [SHOW_SECONDS])⟩

/-- Claim C10: the auto-generated participant id is the first 8 hex digits
of the UUID4 digest uppercased — 8 uppercase hexadecimal characters — and
the consent phase generates it only when the stored id is empty, so a
non-empty stored id is never replaced. -/
theorem participant_id_generation (uuid_hex stored : String)
    (hlen : uuid_hex.toList.length = 32)
    (hhex : ∀ c ∈ uuid_hex.toList, c ∈ hexLower) :
    (generate_participant_id uuid_hex).length = 8 ∧
    (∀ c ∈ (generate_participant_id uuid_hex).toList, c ∈ hexUpper) ∧
    (stored ≠ "" → consent_pid stored uuid_hex = stored) ∧
    consent_pid "" uuid_hex = generate_participant_id uuid_hex := by
  refine ⟨?_, ?_, fun h => ?_, ?_⟩
  · show ((uuid_hex.toList.take 8).map Char.toUpper).length = 8
    rw [List.length_map, List.length_take, hlen]
    decide
  · intro c hc
    have hc' : c ∈ (uuid_hex.toList.take 8).map Char.toUpper := hc
    obtain ⟨d, hd, hdc⟩ := List.mem_map.mp hc'
    rw [← hdc]
    exact toUpper_mem_hexUpper d (hhex d (List.take_subset 8 _ hd))
  · unfold consent_pid
    rw [if_neg h]
  · rfl

/-- Witness for C10 on a concrete UUID4 digest and stored id. -/
theorem participant_id_generation_witness :
    (generate_participant_id "0123456789abcdef0123456789abcdef").length = 8 ∧
    consent_pid "XYZ" "0123456789abcdef0123456789abcdef" = "XYZ" := by
  have h := participant_id_generation "0123456789abcdef0123456789abcdef" "XYZ"
    (by decide) (by decide)
  exact ⟨h.1, h.2.2.1 (by decide)⟩

end ImageSurvey

namespace ImageSurvey

/-- Claim C2: starting from the state demographics leaves behind (cursor 0,
empty log, order a permutation of the catalog indices), a run of `k ≤ N`
validated submissions appends exactly one record per submission: the log
length equals `k`, the `j`-th record (0-based) carries
`order_index = j + 1` (so the order indices are exactly `1..k` in
submission order), `trial_index` equal to the shown image's 0-based catalog
index plus 1 and `image_file` equal to that image's filename; the `N`-th
submission moves the phase to `done` and earlier ones leave it at `show`. -/
theorem response_log_per_submission (adapter : Adapter) (ss : AppState)
    (inputs : List SubmitInput)
    (hph : ss.phase = Phase.showImg) (hidx : ss.idx = 0) (hresp : ss.responses = [])
    (hord : ss.order.Perm (List.range ss.images.length))
    (hlen : inputs.length ≤ ss.images.length) :
    (submitRun adapter ss inputs).responses.length = inputs.length ∧
    (∀ j, j < inputs.length →
        ((submitRun adapter ss inputs).responses.getD j default).order_index = j + 1 ∧
        ((submitRun adapter ss inputs).responses.getD j default).trial_index
          = ss.order.getD j 0 + 1 ∧
        ((submitRun adapter ss inputs).responses.getD j default).image_file
          = ss.images.getD (ss.order.getD j 0) "") ∧
    (inputs.length = ss.images.length → inputs.length ≠ 0 →
        (submitRun adapter ss inputs).phase = Phase.done) ∧
    (inputs.length < ss.images.length →
        (submitRun adapter ss inputs).phase = Phase.showImg) := by
  have hordlen : ss.order.length = ss.images.length := by
    simpa using hord.length_eq
  have hidx' : ss.idx = ss.responses.length := by
    rw [hidx, hresp]
    rfl
  have hle : ss.idx + inputs.length ≤ ss.order.length := by
    rw [hidx, hordlen]
    simpa using hlen
  obtain ⟨_, _, _, hlength, _, hnew, hphase⟩ :=
    submitRun_spec adapter inputs ss hph hidx' hle
  have hrl : ss.responses.length = 0 := by rw [hresp]; rfl
  refine ⟨?_, ?_, ?_, ?_⟩
  · rw [hlength, hrl]
    omega
  · intro j hj
    exact hnew j (by omega) (by omega)
  · intro h1 h2
    rw [hphase, if_neg h2, if_pos (by omega)]
  · intro h1
    rw [hphase]
    by_cases h0 : inputs.length = 0
    · rw [if_pos h0]
    · rw [if_neg h0, if_neg (by omega)]

/-- Witness for C2: a 3-image catalog, three validated submissions. -/
theorem response_log_per_submission_witness :
    (submitRun okAdapter runState sampleInputs).responses.length = 3 ∧
    (submitRun okAdapter runState sampleInputs).phase = Phase.done ∧
    ((submitRun okAdapter runState sampleInputs).responses.getD 1 default).order_index
      = 2 := by
  have h := response_log_per_submission okAdapter runState sampleInputs rfl rfl rfl
    (by decide) (by decide)
  exact ⟨h.1, h.2.2.1 rfl (by decide), (h.2.1 1 (by decide)).1⟩

/-- Claim C5: the local append happens first and unconditionally — the
resulting session state does not depend on the adapter at all, the effect
trace starts with the local append and the remote attempt happens after it,
a raised remote exception is caught and becomes a non-fatal notice, and a
run of `N` submissions against an always-failing adapter still produces a
log of length `N` and reaches `done`. -/
theorem persistence_failure_is_nonfatal :
    (∀ (ss : AppState) (a1 a2 : Adapter) (sliders : Sliders) (r t : String),
        (record_and_next ss a1 sliders r t).1 = (record_and_next ss a2 sliders r t).1) ∧
    (∀ (ss : AppState) (a : Adapter) (sliders : Sliders) (r t : String),
        (record_and_next ss a sliders r t).1.responses
            = ss.responses ++ [mkRow ss sliders r t] ∧
        (record_and_next ss a sliders r t).1.idx = ss.idx + 1 ∧
        (record_and_next ss a sliders r t).2
            = Effect.localAppend (mkRow ss sliders r t)
                :: append_row_to_sheet ss.ws a (mkRow ss sliders r t)) ∧
    (∀ (ws : Worksheet) (row : Row),
        append_row_to_sheet (some ws) failingAdapter row
          = [Effect.remoteAttempt row,
             Effect.notice
               "Failed to append to Google Sheets: simulated network failure"]) ∧
    (∀ (ss : AppState) (inputs : List SubmitInput),
        ss.phase = Phase.showImg → ss.idx = 0 → ss.responses = [] →
        inputs.length = ss.order.length → inputs.length ≠ 0 →
        (submitRun failingAdapter ss inputs).responses.length = ss.order.length ∧
        (submitRun failingAdapter ss inputs).phase = Phase.done) := by
  refine ⟨fun ss a1 a2 sliders r t => rfl, fun ss a sliders r t => ⟨rfl, rfl, rfl⟩,
    fun ws row => rfl, fun ss inputs hph hidx hresp hleneq hne => ?_⟩
  have hidx' : ss.idx = ss.responses.length := by
    rw [hidx, hresp]
    rfl
  have hle : ss.idx + inputs.length ≤ ss.order.length := by omega
  obtain ⟨_, _, _, hlength, _, _, hphase⟩ :=
    submitRun_spec failingAdapter inputs ss hph hidx' hle
  have hrl : ss.responses.length = 0 := by rw [hresp]; rfl
  constructor
  · rw [hlength]
    omega
  · rw [hphase, if_neg hne, if_pos (by omega)]

/-- Witness for C5: the always-failing adapter still yields a length-3 log
and a `done` session on the 3-image catalog. -/
theorem persistence_failure_is_nonfatal_witness :
    (submitRun failingAdapter runState sampleInputs).responses.length = 3 ∧
    (submitRun failingAdapter runState sampleInputs).phase = Phase.done := by
  have h := persistence_failure_is_nonfatal.2.2.2 runState sampleInputs rfl rfl rfl rfl
    (by decide)
  exact ⟨h.1, h.2⟩

/-- Claim C6 (counterexample): at a concrete completed session the done
phase renders exactly three static messages and offers no downloadable
artifact — no CSV serialization of the response log exists in the code. -/
theorem done_phase_no_export_cex :
    (done_render doneState).filter isDownloadArtifact = [] ∧
    (done_render doneState).length = 3 := ⟨rfl, rfl⟩

/-- Claim C6 (amended): on session completion the done phase only displays
three static completion messages; the response log is not serialized and no
downloadable artifact is offered. -/
theorem done_phase_static_messages_only (ss : AppState) :
    done_render ss
      = [UIEffect.successMsg "All done — thank you for participating!",
         UIEffect.writeMsg "Your responses have been recorded.",
         UIEffect.infoMsg "You may now close this window."] ∧
    (done_render ss).filter isDownloadArtifact = [] := ⟨rfl, rfl⟩

/-- Claim C7: `load_images` keeps exactly the entries whose case-folded
extension is on the allow-list, in sorted order, truncated to the first
`max_n` entries: for any sorted arrangement `L` of the allowed entries (which
is unique, by antisymmetry of the order) the result is exactly `L.take max_n`.
An absent directory yields the empty catalog, and the top-level check halts
the session with the user-visible error message iff the catalog is empty. -/
theorem load_images_contract (entries : List String) (max_n : Nat) :
    (load_images true entries max_n).Sorted (fun a b => pyLe a b = true) ∧
    (∀ p, p ∈ load_images true entries max_n → p ∈ entries ∧ extAllowed p = true) ∧
    (load_images true entries max_n).length
      = min max_n (entries.filter extAllowed).length ∧
    (∀ p, p ∈ entries → extAllowed p = true →
        (entries.filter extAllowed).length ≤ max_n →
        p ∈ load_images true entries max_n) ∧
    (∀ L : List String, L.Perm (entries.filter extAllowed) →
        L.Sorted (fun a b => pyLe a b = true) →
        load_images true entries max_n = L.take max_n) ∧
    load_images false entries max_n = [] ∧
    (∀ imgs : List String, startupCheck imgs = StartupResult.proceed ↔ imgs ≠ []) ∧
    startupCheck (load_images false entries max_n)
      = StartupResult.halted
          "No images found in `images/`. Add up to 30 images and reload." := by
  have hperm : (List.insertionSort (fun a b => pyLe a b = true) entries).Perm entries :=
    List.perm_insertionSort _ entries
  have hsorted : (List.insertionSort (fun a b => pyLe a b = true) entries).Sorted
      (fun a b => pyLe a b = true) :=
    List.sorted_insertionSort _ entries
  have hload : load_images true entries max_n
      = ((List.insertionSort (fun a b => pyLe a b = true) entries).filter
          extAllowed).take max_n := rfl
  have hfperm : ((List.insertionSort (fun a b => pyLe a b = true) entries).filter
      extAllowed).Perm (entries.filter extAllowed) := hperm.filter extAllowed
  have hfs : ((List.insertionSort (fun a b => pyLe a b = true) entries).filter
      extAllowed).Sorted (fun a b => pyLe a b = true) :=
    hsorted.sublist (List.filter_sublist _)
  refine ⟨?_, ?_, ?_, ?_, ?_, rfl, ?_, ?_⟩
  · rw [hload]
    exact hsorted.sublist
      ((List.take_sublist _ _).trans (List.filter_sublist _))
  · intro p hp
    rw [hload] at hp
    have hp1 := List.take_subset _ _ hp
    have hp2 := List.mem_filter.mp hp1
    exact ⟨hperm.mem_iff.mp hp2.1, hp2.2⟩
  · rw [hload, List.length_take, hfperm.length_eq]
  · intro p hp hext hsmall
    rw [hload]
    rw [List.take_of_length_le (by rw [hfperm.length_eq]; exact hsmall)]
    exact List.mem_filter.mpr ⟨hperm.mem_iff.mpr hp, hext⟩
  · intro L hLperm hLsorted
    have heq : (List.insertionSort (fun a b => pyLe a b = true) entries).filter
        extAllowed = L :=
      List.eq_of_perm_of_sorted (hfperm.trans hLperm.symm) hfs hLsorted
    rw [hload, heq]
  · intro imgs
    unfold startupCheck
    by_cases h0 : imgs.length = 0
    · rw [if_pos h0]
      simp [List.length_eq_zero.mp h0]
    · rw [if_neg h0]
      simp only [true_iff]
      intro hnil
      exact h0 (by rw [hnil]; rfl)
  · have hnilload : load_images false entries max_n = [] := rfl
    rw [hnilload]
    decide

/-- Witness for C7: with `max_n = 2` over allowed files `a.jpg`, `b.PNG`,
`c.webp` the truncation keeps the first two sorted entries, and with
`max_n = 30` every allowed entry is kept. -/
theorem load_images_contract_witness :
    load_images true ["b.PNG", "a.jpg", "notes.txt", "c.webp"] 2
      = ["a.jpg", "b.PNG"] ∧
    "a.jpg" ∈ load_images true ["b.PNG", "a.jpg", "notes.txt", "c.webp"] 30 := by
  have h2 := load_images_contract ["b.PNG", "a.jpg", "notes.txt", "c.webp"] 2
  have h30 := load_images_contract ["b.PNG", "a.jpg", "notes.txt", "c.webp"] 30
  constructor
  · rw [h2.2.2.2.2.1 ["a.jpg", "b.PNG", "c.webp"] (by decide) (by decide)]
    rfl
  · exact h30.2.2.2.1 "a.jpg" (by decide) (by decide) (by decide)

/-- Claim C8 (counterexample): an existing but empty `responses` worksheet is
used as-is — no header row is created even though the destination is empty,
so "created on first use whenever the destination is empty" fails. -/
theorem sheet_header_empty_worksheet_cex :
    get_worksheet "https://sheets.example/doc" (some { rows := [] }) true
      = some { rows := [] } ∧
    (({ rows := [] } : Worksheet)).rows.getD 0 [] ≠ header_row_cells := by
  exact ⟨rfl, by decide⟩

/-- Claim C8 (amended): every row sent to the adapter is a list of exactly
21 values whose order matches the 21-column header position for position,
and the header row is created when the `responses` worksheet does not yet
exist (it is created together with the worksheet); an existing worksheet —
even an empty one — is used unchanged. -/
theorem sheet_row_schema (r : Row) (url : String) (ok : Bool) (hurl : url ≠ "") :
    (rowToOrdered r).length = 21 ∧
    sheet_header.length = 21 ∧
    (∀ k, k < 21 → (rowToOrdered r)[k]? = cellForColumn r (sheet_header.getD k "")) ∧
    get_worksheet url none ok
      = (if ok then some { rows := [header_row_cells] } else none) ∧
    (∀ ws : Worksheet, get_worksheet url (some ws) true = some ws) := by
  refine ⟨rfl, rfl, ?_, ?_, ?_⟩
  · intro k hk
    interval_cases k <;> rfl
  · unfold get_worksheet
    rw [if_neg hurl]
    cases ok with
    | false => rfl
    | true => rfl
  · intro ws
    unfold get_worksheet
    rw [if_neg hurl]
    rfl

/-- Witness for C8 (amended) at a concrete row and URL. -/
theorem sheet_row_schema_witness :
    (rowToOrdered default).length = 21 ∧
    get_worksheet "https://sheets.example/doc" none true
      = some { rows := [header_row_cells] } := by
  have h := sheet_row_schema default "https://sheets.example/doc" true (by decide)
  refine ⟨h.1, ?_⟩
  rw [h.2.2.2.1]
  rfl

end ImageSurvey
